import Mathlib

/-
Verification of the formula-resolution engine of the `actuarialmath`
package (class `Recursion` and its tracer `Blog`).

Modelling conventions:
* Python floats are modelled as rationals (exact real-valued arithmetic).
* Python `None` is `Option.none`; a derivation helper returns
  `Except PyErr (Option ℚ)`: `.ok none` is the "unknown" sentinel and
  `.error e` models a raised Python exception (division by zero,
  reference to an unassigned local variable, a TypeError raised while
  building a trace message, a failed assert, or an unexpected keyword
  argument - the source contains each of these).
* The recursion is made structural on an explicit fuel argument that is
  decremented at every call; `.error .fuel` marks exhaustion.  The
  semantic depth budget of the source (`depth`, possibly negative) is
  kept as a separate `Int` argument exactly as in the code.
* The key-value store `self.db` is a map from canonical keys to values;
  the derivation helpers only ever read it, mirroring the source, in
  which no `db_put` call occurs outside the `set_*` methods.
* Trace (`Blog`) message strings do not influence any computed value,
  so the helpers do not thread the tracer; the two places where the
  source's trace plumbing raises an exception are modelled as explicit
  `.error` results at the same program points.  The tracer itself is
  modelled separately for the tracer claims.
-/

namespace Actuarialmath

/-- Runtime errors the translated Python code can raise. -/
inductive PyErr where
  | fuel          -- fuel exhaustion of the embedding (not a Python error)
  | zeroDiv       -- ZeroDivisionError
  | unboundLocal  -- UnboundLocalError (the stale `p` in `_A_x`)
  | typeErr       -- TypeError (string multiplication in a trace call,
                  -- arithmetic on None, unexpected keyword argument)
  | assertErr     -- AssertionError
deriving DecidableEq, Repr

/-- Canonical store keys, one constructor per quantity kind; fields
follow `db_key`: age is stored as the absolute age `x + s`. -/
inductive DBKey where
  | q (x u t : Int)
  | p (x t : Int)
  | e (x t : Int) (curtate : Bool) (moment : Int)
  | E (x t moment : Int)
  | IA (x t : Int) (discrete : Bool)
  | DA (x t : Int) (discrete : Bool)
  | A (x u t moment : Int) (endowment : ℚ) (discrete : Bool)
  | a (x u t : Int) (variance discrete : Bool)
deriving DecidableEq

/-- The Fact Store: a mapping from canonical keys to scalar values. -/
def DB : Type := DBKey → Option ℚ

/-- The empty store. -/
def db0 : DB := fun _ => none

/-- Mirrors `db_put`: store a value, or remove the entry when the value
is absent.  (When the value is `None` and the key is missing the Python
dict would keep an entry holding `None`; every `get` collapses such an
entry to "absent", so the two representations agree observably.) -/
def db_put (db : DB) (k : DBKey) (v : Option ℚ) : DB :=
  fun k2 => if k2 = k then v else db k2

/-- Modelled from the spec: the whole-life sentinel for a term
(`t < 0` means "unlimited"); the constant lives in a base class that is
not part of the sources in scope. -/
def WHOLE : Int := -999

/-- Modelled from the spec: the marker that `moment` carries to request
a variance; the constant lives in a base class outside the sources in
scope.  Any value other than 1 and 2 works. -/
def VARIANCE : Int := -2

/-- Modelled from the spec: `add_term` adds a number of years to a term
while the whole-life sentinel absorbs the addition. -/
def add_term (t n : Int) : Int :=
  if t = WHOLE ∨ n = WHOLE then WHOLE else t + n

/-- Modelled from the spec: the collaborator's closed-form formulas
(the `super()` methods of the base classes, which are outside the
sources in scope).  Each is an arbitrary function returning a value or
`None`; the engine consumes them as a last resort. -/
structure Super where
  q_x : Int → Int → Int → Int → Option ℚ
  p_x : Int → Int → Int → Option ℚ
  e_x : Int → Int → Int → Bool → Int → Option ℚ
  E_x : Int → Int → Int → ℚ → Int → Option ℚ
  increasing_insurance : Int → Int → Int → ℚ → Bool → Option ℚ
  decreasing_insurance : Int → Int → Int → ℚ → Bool → Option ℚ
  whole_life_insurance : Int → Int → ℚ → Bool → Int → Option ℚ
  term_insurance : Int → Int → Int → ℚ → Int → Bool → Option ℚ
  deferred_insurance : Int → Int → ℚ → Int → Int → Int → Bool → Option ℚ
  endowment_insurance : Int → Int → Int → ℚ → ℚ → Int → Bool → Option ℚ
  whole_life_annuity : Int → Int → ℚ → Bool → Bool → Option ℚ
  temporary_annuity : Int → Int → Int → ℚ → Bool → Bool → Option ℚ
  deferred_annuity : Int → Int → Int → ℚ → Bool → Option ℚ

/-- The fixed per-instance data of a `Recursion` object: the interest
assumption, the recursion depth bound, and the collaborator. -/
structure Env where
  i : ℚ
  delta : ℚ
  maxdepth : Int

/-- Modelled from the spec: the one-period discount factor
`v = 1 / (1 + i)` of the external interest collaborator. -/
def Env.v (env : Env) : ℚ := 1 / (1 + env.i)

/-- Modelled from the spec: the multi-period discount `v_t(t) = v ^ t`
of the external interest collaborator. -/
def Env.v_t (env : Env) (t : Int) : ℚ := env.v ^ t

/-- Modelled from the spec: the twin relation `a = (1 - A) / d` with
`d = i / (1 + i)` for discrete quantities (continuous quantities use the
force of interest `delta`); the formula lives in the external insurance
collaborator. -/
def annuity_twin (env : Env) (A : ℚ) (discrete : Bool) : ℚ :=
  (1 - A) / (if discrete then env.i / (1 + env.i) else env.delta)

/-- Modelled from the spec: the twin relation `A = 1 - d * a`. -/
def insurance_twin (env : Env) (a : ℚ) (discrete : Bool) : ℚ :=
  1 - (if discrete then env.i / (1 + env.i) else env.delta) * a

/-- Result of a derivation helper: a raised error, or a value/None. -/
abbrev Res : Type := Except PyErr (Option ℚ)

/-- Python division producing a derivation result. -/
def pdivO (a b : ℚ) : Res :=
  if b = 0 then .error .zeroDiv else .ok (some (a / b))

/-- Python division producing a plain rational. -/
def pdiv (a b : ℚ) : Except PyErr ℚ :=
  if b = 0 then .error .zeroDiv else .ok (a / b)

/-- Sequencing that propagates raised errors (Python control flow). -/
def onOk {α β : Type} : Except PyErr α → (α → Except PyErr β) → Except PyErr β
  | .error e, _ => .error e
  | .ok a, f => f a

@[simp] theorem onOk_ok {α β : Type} (a : α) (f : α → Except PyErr β) :
    onOk (.ok a) f = f a := rfl

@[simp] theorem onOk_error {α β : Type} (e : PyErr) (f : α → Except PyErr β) :
    onOk (.error e) f = .error e := rfl

/-!  Store getters and setters, one pair per kind (`get_q` ... `set_a`),
translated from the source. -/

/-- Mirrors `get_q`. -/
def get_q (db : DB) (x s t u : Int) : Option ℚ :=
  db (.q (x + s) u t)

/-- Mirrors `set_q`. -/
def set_q (db : DB) (val : Option ℚ) (x s t u : Int) : DB :=
  db_put db (.q (x + s) u t) val

/-- Mirrors `get_p`: `t = 0` and `t < 0` are resolved algebraically
before the store lookup. -/
def get_p (db : DB) (x s t : Int) : Option ℚ :=
  if t = 0 then some 1
  else if t < 0 then some 0
  else db (.p (x + s) t)

/-- Mirrors `set_p`. -/
def set_p (db : DB) (val : Option ℚ) (x s t : Int) : DB :=
  db_put db (.p (x + s) t) val

/-- Mirrors `get_e`. -/
def get_e (db : DB) (x s t : Int) (curtate : Bool) (moment : Int) : Option ℚ :=
  db (.e (x + s) t curtate moment)

/-- Mirrors `set_e`. -/
def set_e (db : DB) (val : Option ℚ) (x s t : Int) (curtate : Bool)
    (moment : Int) : DB :=
  db_put db (.e (x + s) t curtate moment) val

/-- Mirrors `get_E`: values are stored per unit of endowment and scaled
with the requested endowment on read. -/
def get_E (db : DB) (x s t : Int) (endowment : ℚ) (moment : Int) : Option ℚ :=
  (db (.E (x + s) t moment)).map (fun val => val * endowment)

/-- Mirrors `set_E`: the value is divided by the endowment before being
stored; on the absence sentinel the division raises a TypeError. -/
def set_E (db : DB) (val : Option ℚ) (x s t : Int) (endowment : ℚ)
    (moment : Int) : Except PyErr DB :=
  match val with
  | none => .error .typeErr
  | some v =>
    onOk (pdiv v endowment) fun v2 =>
      .ok (db_put db (.E (x + s) t moment) (some v2))

/-- Mirrors `get_IA`. -/
def get_IA (db : DB) (x s t : Int) (b : ℚ) (discrete : Bool) : Option ℚ :=
  (db (.IA (x + s) t discrete)).map (fun val => val * b)

/-- Mirrors `set_IA`. -/
def set_IA (db : DB) (val : Option ℚ) (x s t : Int) (b : ℚ)
    (discrete : Bool) : Except PyErr DB :=
  match val with
  | none => .error .typeErr
  | some v =>
    onOk (pdiv v b) fun v2 =>
      .ok (db_put db (.IA (x + s) t discrete) (some v2))

/-- Mirrors `get_DA`. -/
def get_DA (db : DB) (x s t : Int) (b : ℚ) (discrete : Bool) : Option ℚ :=
  (db (.DA (x + s) t discrete)).map (fun val => val * b)

/-- Mirrors `set_DA`. -/
def set_DA (db : DB) (val : Option ℚ) (x s t : Int) (b : ℚ)
    (discrete : Bool) : Except PyErr DB :=
  match val with
  | none => .error .typeErr
  | some v =>
    onOk (pdiv v b) fun v2 =>
      .ok (db_put db (.DA (x + s) t discrete) (some v2))

/-- Mirrors `get_A`, including the benefit/endowment normalisation:
`endowment < 0` means "endowment equal to the benefit", `t = 0` returns
the endowment without a lookup, and the stored unit value is rescaled
by the benefit (or, for `b = 0`, by the endowment). -/
def get_A (db : DB) (x s u t : Int) (b : ℚ) (moment : Int) (endowment : ℚ)
    (discrete : Bool) : Option ℚ :=
  let endowment := if endowment < 0 then b else endowment
  if t = 0 then some endowment
  else
    let scale : ℚ := if b = 0 then endowment else b
    let endw : ℚ :=
      if b = 0 then 1 else if b = endowment then 1 else endowment / b
    (db (.A (x + s) u t moment endw discrete)).map (fun val => val * scale)

/-- Mirrors `set_A` with its three normalisation branches; divisions on
the absence sentinel raise a TypeError, divisions by zero raise. -/
def set_A (db : DB) (val : Option ℚ) (x s t u : Int) (b : ℚ) (moment : Int)
    (endowment : ℚ) (discrete : Bool) : Except PyErr DB :=
  let endowment := if endowment < 0 then b else endowment
  if endowment = 0 then
    match val with
    | none => .error .typeErr
    | some v =>
      onOk (pdiv v b) fun v2 =>
        .ok (db_put db (.A (x + s) u t moment endowment discrete) (some v2))
  else if b = 0 then
    match val with
    | none => .error .typeErr
    | some v =>
      onOk (pdiv v endowment) fun v2 =>
        .ok (db_put db (.A (x + s) u t moment endowment discrete) (some v2))
  else if b = 1 then
    .ok (db_put db (.A (x + s) u t moment endowment discrete) val)
  else
    match val with
    | none => .error .typeErr
    | some v =>
      onOk (pdiv v b) fun v2 =>
        .ok (db_put db (.A (x + s) u t moment (endowment / b) discrete)
          (some v2))

/-- Mirrors `get_a`. -/
def get_a (db : DB) (x s u t : Int) (b : ℚ) (variance discrete : Bool) :
    Option ℚ :=
  (db (.a (x + s) u t variance discrete)).map (fun val => val * b)

/-- Mirrors `set_a`. -/
def set_a (db : DB) (val : Option ℚ) (x s t u : Int) (b : ℚ)
    (variance discrete : Bool) : Except PyErr DB :=
  match val with
  | none => .error .typeErr
  | some v =>
    onOk (pdiv v b) fun v2 =>
      .ok (db_put db (.a (x + s) u t variance discrete) (some v2))

/-!  The derivation helpers `_q_x` ... `_a_x`, one mutual block.  Each
takes the explicit fuel first; every call decrements it.  The `depth`
argument is the source's budget and may go negative; collateral lookups
receive `1 - |depth|` exactly as in the code. -/

mutual

/-- Mirrors `_q_x`: store lookup, the `t = 0` / `t < 0` sentinels, the
defer and limit identities (tried while `u > 0`, before the depth
check), the depth check, then the complement-of-survival identity. -/
def _q_x (env : Env) (db : DB) : Nat → Int → Int → Int → Int → Int → Res
  | 0, _, _, _, _, _ => .error .fuel
  | fuel + 1, x, s, t, u, depth =>
    match get_q db x s t u with
    | some found => .ok (some found)
    | none =>
      if t = 0 then .ok (some 0)
      else if t < 0 then .ok (some 1)
      else
        onOk (if u > 0 then
            onOk (_p_x env db fuel x s u (depth - 1)) fun pu =>
              match pu, get_q db x (s + u) t 0 with
              | some pu, some qt => .ok (some (pu * qt))
              | _, _ =>
                match get_q db x s u 0, get_q db x s (u + t) 0 with
                | some qu, some qt => .ok (some (qt - qu))
                | _, _ => .ok none
          else .ok none) fun step =>
        match step with
        | some v => .ok (some v)
        | none =>
          if depth ≤ 0 then .ok none
          else
            onOk (_p_x env db fuel x s u (depth - 1)) fun pu =>
            onOk (_p_x env db fuel x s (u + t) (depth - 1)) fun pt =>
            match pu, pt with
            | some pu, some pt => .ok (some (pu - pt))
            | _, _ => .ok none

/-- Mirrors `_p_x`: store lookup (with its sentinels), the complement
of mortality (before the depth check), the two inverse chain rules, the
two forward chain rules for `t > 1`, and for `t = 1` the one-year
endowment, annuity-recursion and insurance-recursion fallbacks (each
tried at the whole-life term then at a 2-year term). -/
def _p_x (env : Env) (db : DB) : Nat → Int → Int → Int → Int → Res
  | 0, _, _, _, _ => .error .fuel
  | fuel + 1, x, s, t, depth =>
    match get_p db x s t with
    | some found => .ok (some found)
    | none =>
      match get_q db x s t 0 with
      | some found => .ok (some (1 - found))
      | none =>
        if depth ≤ 0 then .ok none
        else
          onOk (_p_x env db fuel x (s - 1) (t + 1) (depth - 1)) fun f1 =>
          onOk (_p_x env db fuel x (s - 1) 1 (1 - |depth|)) fun p1 =>
          match f1, p1 with
          | some f1, some p1 => pdivO f1 p1
          | _, _ =>
            onOk (_p_x env db fuel x s (t + 1) (depth - 1)) fun f2 =>
            onOk (_p_x env db fuel x (s + t) 1 (1 - |depth|)) fun p2 =>
            match f2, p2 with
            | some f2, some p2 => pdivO f2 p2
            | _, _ =>
              onOk (if t > 1 then
                  onOk (_p_x env db fuel x (s + 1) (t - 1) (depth - 1)) fun f3 =>
                  onOk (_p_x env db fuel x s 1 (1 - |depth|)) fun p3 =>
                  match f3, p3 with
                  | some f3, some p3 => .ok (some (f3 * p3))
                  | _, _ =>
                    onOk (_p_x env db fuel x s (t - 1) (depth - 1)) fun f4 =>
                    onOk (_p_x env db fuel x (s + t - 1) 1 (1 - |depth|)) fun p4 =>
                    match f4, p4 with
                    | some f4, some p4 => .ok (some (f4 * p4))
                    | _, _ => .ok none
                else .ok none) fun step =>
              match step with
              | some v => .ok (some v)
              | none =>
                if t = 1 then
                  onOk (_E_x env db fuel x s 1 1 1 (depth - 1)) fun E1 =>
                  match E1 with
                  | some E1 => pdivO E1 env.v
                  | none =>
                    onOk (_a_x env db fuel x s WHOLE 0 1 true false (depth - 1)) fun a1 =>
                    onOk (_a_x env db fuel x (s + 1) (add_term WHOLE (-1)) 0 1 true false (depth - 1)) fun a2 =>
                    match a1, a2 with
                    | some a1, some a2 => pdivO (a1 - 1) (env.v * a2)
                    | _, _ =>
                      onOk (_a_x env db fuel x s 2 0 1 true false (depth - 1)) fun a3 =>
                      onOk (_a_x env db fuel x (s + 1) (add_term 2 (-1)) 0 1 true false (depth - 1)) fun a4 =>
                      match a3, a4 with
                      | some a3, some a4 => pdivO (a3 - 1) (env.v * a4)
                      | _, _ =>
                        onOk (_A_x env db fuel x s WHOLE 0 1 true 0 1 (depth - 1)) fun A1 =>
                        onOk (_A_x env db fuel x (s + 1) (add_term WHOLE (-1)) 0 1 true 0 1 (depth - 1)) fun A2 =>
                        match A1, A2 with
                        | some A1, some A2 => pdivO (env.v - A1) (env.v * (1 - A2))
                        | _, _ =>
                          onOk (_A_x env db fuel x s 2 0 1 true 0 1 (depth - 1)) fun A3 =>
                          onOk (_A_x env db fuel x (s + 1) (add_term 2 (-1)) 0 1 true 0 1 (depth - 1)) fun A4 =>
                          match A3, A4 with
                          | some A3, some A4 => pdivO (env.v - A3) (env.v * (1 - A4))
                          | _, _ => .ok none
                else .ok none

/-- Mirrors `_e_x`: store lookup, depth check, then (for first moments)
the 1-year curtate shortcut (which returns even an unresolved value),
the temporary-lifetime identity for `t > 1`, and the forward and
backward recursions.  The collateral survival lookups use the source's
default depth of 1. -/
def _e_x (env : Env) (db : DB) : Nat → Int → Int → Int → Bool → Int → Int → Res
  | 0, _, _, _, _, _, _ => .error .fuel
  | fuel + 1, x, s, t, curtate, moment, depth =>
    match get_e db x s t curtate moment with
    | some found => .ok (some found)
    | none =>
      if depth ≤ 0 then .ok none
      else if moment = 1 then
        onOk (if t > 0 then
            onOk (_p_x env db fuel x s t 1) fun p_t =>
            if t = 1 ∧ curtate = true then .ok (some p_t)
            else if t > 1 then
              onOk (_e_x env db fuel x s WHOLE curtate 1 (depth - 1)) fun e1 =>
              onOk (_e_x env db fuel x (s + t) WHOLE curtate 1 (depth - 1)) fun e2 =>
              match e1, e2, p_t with
              | some e1, some e2, some p_t => .ok (some (some (e1 - p_t * e2)))
              | _, _, _ => .ok none
            else .ok none
          else .ok none) fun step =>
        match step with
        | some r => .ok r
        | none =>
          onOk (_e_x env db fuel x (s - 1) (add_term t 1) curtate 1 (depth - 1)) fun e1 =>
          onOk (_e_x env db fuel x (s - 1) 1 curtate 1 (depth - 1)) fun e2 =>
          onOk (_p_x env db fuel x (s - 1) 1 1) fun p1 =>
          match e1, e2, p1 with
          | some e1, some e2, some p1 => pdivO (e1 - e2) p1
          | _, _, _ =>
            onOk (_e_x env db fuel x s 1 curtate 1 (depth - 1)) fun e3 =>
            onOk (_e_x env db fuel x (s + 1) (add_term t (-1)) curtate 1 (depth - 1)) fun e4 =>
            onOk (_p_x env db fuel x s 1 1) fun p2 =>
            match e3, e4, p2 with
            | some e3, some e4, some p2 => .ok (some (e3 + p2 * e4))
            | _, _, _ => .ok none
      else .ok none

/-- Mirrors `_E_x`: store lookup, the `t < 0` / `t = 0` sentinels, the
second-moment shortcut (same depth, with the source's truthiness test
on the collateral value), the via-survival production (before the depth
check), the endowment-minus-term identity and the chain rule. -/
def _E_x (env : Env) (db : DB) : Nat → Int → Int → Int → ℚ → Int → Int → Res
  | 0, _, _, _, _, _, _ => .error .fuel
  | fuel + 1, x, s, t, endowment, moment, depth =>
    match get_E db x s t endowment moment with
    | some E => .ok (some E)
    | none =>
      if t < 0 then .ok (some 0)
      else if t = 0 then .ok (some (endowment ^ moment))
      else
        onOk (if moment > 1 then
            onOk (_E_x env db fuel x s 1 endowment 1 depth) fun E1 =>
            match E1 with
            | some E1 =>
              if E1 = 0 then .ok none
              else .ok (some (E1 * env.v ^ (moment - 1)))
            | none => .ok none
          else .ok none) fun step =>
        match step with
        | some v => .ok (some v)
        | none =>
          onOk (_p_x env db fuel x s t (depth - 1)) fun p1 =>
          match p1 with
          | some p1 => .ok (some (p1 * (endowment * env.v_t t) ^ moment))
          | none =>
            if depth ≤ 0 then .ok none
            else
              onOk (_A_x env db fuel x s t 0 endowment true 0 moment (depth - 1)) fun At =>
              onOk (_A_x env db fuel x s t 0 endowment true endowment moment (1 - |depth|)) fun A1 =>
              match A1, At with
              | some A1, some At => .ok (some (A1 - At))
              | _, _ =>
                onOk (_E_x env db fuel x s 1 1 moment (1 - |depth|)) fun E1 =>
                onOk (_E_x env db fuel x (s + 1) (t - 1) 1 moment (depth - 1)) fun Et =>
                match E1, Et with
                | some E1, some Et => .ok (some (E1 * Et * endowment ^ moment))
                | _, _ => .ok none

/-- Mirrors `_IA_x`: the `t = 0` base case precedes the store lookup;
then the varying-insurance identity `n*A - DA` for `t > 0` and the
backward recursion (whose recursive call drops the `discrete` flag,
defaulting to discrete, as in the source). -/
def _IA_x (env : Env) (db : DB) : Nat → Int → Int → Int → ℚ → Bool → Int → Res
  | 0, _, _, _, _, _, _ => .error .fuel
  | fuel + 1, x, s, t, b, discrete, depth =>
    if t = 0 then .ok (some 0)
    else
      match get_IA db x s t b discrete with
      | some found => .ok (some found)
      | none =>
        if depth ≤ 0 then .ok none
        else
          onOk (if t > 0 then
              onOk (_A_x env db fuel x s t 0 b discrete 0 1 (depth - 1)) fun A1 =>
              onOk (_DA_x env db fuel x s t b discrete (depth - 1)) fun DA =>
              match A1, DA with
              | some A1, some DA =>
                .ok (some (A1 * ((t : ℚ) + (if discrete then 1 else 0)) - DA))
              | _, _ => .ok none
            else .ok none) fun step =>
          match step with
          | some v => .ok (some v)
          | none =>
            onOk (_A_x env db fuel x s 1 0 b discrete 0 1 (depth - 1)) fun A1 =>
            onOk (_IA_x env db fuel x (s + 1) (add_term t (-1)) b true (depth - 1)) fun IA =>
            onOk (_p_x env db fuel x s 1 (1 - |depth|)) fun p1 =>
            match A1, IA, p1 with
            | some A1, some IA, some p1 => .ok (some (A1 + p1 * env.v * IA))
            | _, _, _ => .ok none

/-- Mirrors `_DA_x`: store lookup (without benefit scaling, as in the
source call), the `t = 0` base case, the depth and `t < 0` checks; then
the varying-insurance identity, in which the source recursively calls
`_DA_x` itself at the same age and term (the local variable is named
`IA` and the trace message says `n*A - IA`), and the backward recursion,
in which the source calls `_IA_x` at the next age (the local variable is
named `DA` and the trace message names a decreasing insurance). -/
def _DA_x (env : Env) (db : DB) : Nat → Int → Int → Int → ℚ → Bool → Int → Res
  | 0, _, _, _, _, _, _ => .error .fuel
  | fuel + 1, x, s, t, b, discrete, depth =>
    match get_DA db x s t 1 discrete with
    | some found => .ok (some found)
    | none =>
      if t = 0 then .ok (some 0)
      else if depth ≤ 0 then .ok none
      else if t < 0 then .ok none
      else
        onOk (_A_x env db fuel x s t 0 b discrete 0 1 (depth - 1)) fun A1 =>
        onOk (_DA_x env db fuel x s t b discrete (depth - 1)) fun IA =>
        match A1, IA with
        | some A1, some IA =>
          .ok (some (A1 * ((t : ℚ) + (if discrete then 1 else 0)) - IA))
        | _, _ =>
          onOk (_IA_x env db fuel x (s + 1) (add_term t (-1)) b true (depth - 1)) fun DA =>
          onOk (_p_x env db fuel x s 1 (1 - |depth|)) fun p1 =>
          match DA, p1 with
          | some DA, some p1 =>
            .ok (some (env.v * ((1 - p1) * (t : ℚ) + p1 * DA)))
          | _, _ => .ok none

/-- Mirrors `_A_x`: the one-year discrete endowment-insurance shortcut,
store lookup, depth check; for `u > 0` the backward branch (in which
the source tests a local variable `p` that is never assigned on that
path, raising UnboundLocalError whenever the recursive insurance value
resolves) and the forward branch; then the endowment/term
decompositions, the one-year discrete cases (in which the source's
trace call multiplies two strings, raising TypeError whenever the
collateral survival probability resolves), and the backward and forward
recursions. -/
def _A_x (env : Env) (db : DB) : Nat → Int → Int → Int → Int → ℚ → Bool → ℚ → Int → Int → Res
  | 0, _, _, _, _, _, _, _, _, _ => .error .fuel
  | fuel + 1, x, s, t, u, b, discrete, endowment, moment, depth =>
    if endowment = b ∧ t = 1 ∧ discrete = true then
      .ok (some ((env.v_t 1 * endowment) ^ moment))
    else
      match get_A db x s u t b moment endowment discrete with
      | some found => .ok (some found)
      | none =>
        if depth ≤ 0 then .ok none
        else if u > 0 then
          onOk (_A_x env db fuel x (s + 1) t (u - 1) b discrete endowment moment (depth - 1)) fun A1 =>
          onOk (_E_x env db fuel x s 1 1 moment (depth - 1)) fun _E1 =>
          match A1 with
          | some _ => .error .unboundLocal
          | none =>
            onOk (_A_x env db fuel x (s - 1) t (u + 1) b discrete endowment moment (depth - 1)) fun A2 =>
            onOk (_E_x env db fuel x (s - 1) 1 1 moment (depth - 1)) fun E2 =>
            match A2, E2 with
            | some A2, some E2 => pdivO A2 E2
            | _, _ => .ok none
        else
          onOk (if endowment > 0 then
              onOk (_A_x env db fuel x s t 0 b discrete 0 moment (1 - |depth|)) fun A1 =>
              onOk (_E_x env db fuel x s t endowment moment (1 - |depth|)) fun E1 =>
              match A1, E1 with
              | some A1, some E1 => .ok (some (A1 + E1))
              | _, _ => .ok none
            else
              onOk (_A_x env db fuel x s t 0 b discrete b moment (1 - |depth|)) fun A1 =>
              onOk (_E_x env db fuel x s t b moment (1 - |depth|)) fun E1 =>
              match A1, E1 with
              | some A1, some E1 => .ok (some (A1 - E1))
              | _, _ => .ok none) fun step =>
          match step with
          | some v => .ok (some v)
          | none =>
            if discrete = false then .ok none
            else
              onOk (if t = 1 then
                  if endowment = b then
                    .ok (some ((env.v * endowment) ^ moment))
                  else
                    onOk (_p_x env db fuel x s 1 1) fun p1 =>
                    match p1 with
                    | some _ => .error .typeErr
                    | none => .ok none
                else .ok none) fun stepT1 =>
              match stepT1 with
              | some v => .ok (some v)
              | none =>
                onOk (_A_x env db fuel x (s + 1) (add_term t (-1)) 0 b discrete endowment moment (depth - 1)) fun A1 =>
                onOk (_p_x env db fuel x s 1 (1 - |depth|)) fun p1 =>
                match A1, p1 with
                | some A1, some p1 =>
                  .ok (some (env.v_t 1 ^ moment * ((1 - p1) * b ^ moment + p1 * A1)))
                | _, _ =>
                  onOk (_A_x env db fuel x (s - 1) (add_term t 1) u b discrete endowment moment (depth - 1)) fun A2 =>
                  onOk (_p_x env db fuel x (s - 1) 1 (1 - |depth|)) fun p2 =>
                  match A2, p2 with
                  | some A2, some p2 =>
                    onOk (pdiv A2 (env.v_t 1 ^ moment)) fun r1 =>
                    pdivO (r1 - (1 - p2) * b ^ moment) p2
                  | _, _ => .ok none

/-- Mirrors `_a_x`: the one-year discrete non-deferred sentinel and the
`t = 0` base case precede the store lookup; then depth and variance
checks; for `u > 0` the backward and forward deferred recursions, else
the backward and forward temporary/whole recursions (the forward calls
drop the variance flag, defaulting to `False`, as in the source). -/
def _a_x (env : Env) (db : DB) : Nat → Int → Int → Int → Int → ℚ → Bool → Bool → Int → Res
  | 0, _, _, _, _, _, _, _, _ => .error .fuel
  | fuel + 1, x, s, t, u, b, discrete, variance, depth =>
    if t = 1 ∧ u = 0 ∧ discrete = true then .ok (some b)
    else if t = 0 then .ok (some 0)
    else
      match get_a db x s u t b variance discrete with
      | some found => .ok (some found)
      | none =>
        if depth ≤ 0 then .ok none
        else if variance = true then .ok none
        else if u > 0 then
          onOk (_a_x env db fuel x (s + 1) t (u - 1) b discrete variance (depth - 1)) fun f1 =>
          onOk (_E_x env db fuel x s 1 1 1 (depth - 1)) fun E1 =>
          match f1, E1 with
          | some f1, some E1 => .ok (some (E1 * f1))
          | _, _ =>
            onOk (_a_x env db fuel x (s - 1) t (u + 1) b discrete false (depth - 1)) fun f2 =>
            onOk (_E_x env db fuel x (s - 1) 1 1 1 (depth - 1)) fun E2 =>
            match f2, E2 with
            | some f2, some E2 => pdivO f2 E2
            | _, _ => .ok none
        else
          onOk (_a_x env db fuel x (s + 1) (add_term t (-1)) u b discrete variance (depth - 1)) fun f1 =>
          onOk (_E_x env db fuel x s 1 1 1 (depth - 1)) fun E1 =>
          match f1, E1 with
          | some f1, some E1 => .ok (some (b + E1 * f1))
          | _, _ =>
            onOk (_a_x env db fuel x (s - 1) (add_term t 1) u b discrete false (depth - 1)) fun f2 =>
            onOk (_E_x env db fuel x (s - 1) 1 1 1 (depth - 1)) fun E2 =>
            match f2, E2 with
            | some f2, some E2 => pdivO (f2 - b) E2
            | _, _ => .ok none

end

/-- Fuel given to every public entry point; the depth budget bounds the
actual recursion well below this. -/
def FUEL : Nat := 48

/-!  Public facade methods.  Each sets up a tracer (value-irrelevant,
modelled separately), invokes the bounded resolver at `maxdepth`, and -
for the insurance and annuity families - falls back to the twin
relation and/or the collaborator's closed form.  The mortality,
survival, lifetime and pure-endowment methods return the resolver's
result directly. -/

/-- Mirrors `q_x`. -/
def q_x (env : Env) (_sup : Super) (db : DB) (x s t u : Int) : Res :=
  _q_x env db FUEL x s t u env.maxdepth

/-- Mirrors `p_x`. -/
def p_x (env : Env) (_sup : Super) (db : DB) (x s t : Int) : Res :=
  _p_x env db FUEL x s t env.maxdepth

/-- Mirrors `e_x`. -/
def e_x (env : Env) (_sup : Super) (db : DB) (x s t : Int) (curtate : Bool) (moment : Int) :
    Res :=
  _e_x env db FUEL x s t curtate moment env.maxdepth

/-- Mirrors `E_x`: the Bernoulli variance shortcut (whose arithmetic on
an unresolved survival probability raises a TypeError), else the
resolver. -/
def E_x (env : Env) (sup : Super) (db : DB) (x s t : Int) (endowment : ℚ) (moment : Int) :
    Res :=
  if moment = VARIANCE then
    match get_E db x s t endowment moment with
    | some found => .ok (some found)
    | none =>
      onOk (p_x env sup db x s t) fun tp =>
      match tp with
      | some tp =>
        .ok (some ((endowment * env.v_t t) ^ (2 : Int) * tp * (1 - tp)))
      | none => .error .typeErr
  else
    _E_x env db FUEL x s t endowment moment env.maxdepth

/-- Mirrors `increasing_insurance`: resolver, then collaborator. -/
def increasing_insurance (env : Env) (sup : Super) (db : DB) (x s t : Int) (b : ℚ)
    (discrete : Bool) : Res :=
  onOk (_IA_x env db FUEL x s t b discrete env.maxdepth) fun IA =>
  match IA with
  | some v => .ok (some v)
  | none => .ok (sup.increasing_insurance x s t b discrete)

/-- Mirrors `decreasing_insurance`: the `t = 0` shortcut, the resolver,
then the collaborator. -/
def decreasing_insurance (env : Env) (sup : Super) (db : DB) (x s t : Int) (b : ℚ)
    (discrete : Bool) : Res :=
  if t = 0 then .ok (some 0)
  else
    onOk (_DA_x env db FUEL x s t b discrete env.maxdepth) fun A1 =>
    match A1 with
    | some v => .ok (some v)
    | none => .ok (sup.decreasing_insurance x s t b discrete)

/-- Mirrors `whole_life_insurance`: resolver, then (for first moments
at positive interest) the annuity twin, then the collaborator. -/
def whole_life_insurance (env : Env) (sup : Super) (db : DB) (x s : Int) (b : ℚ)
    (discrete : Bool) (moment : Int) : Res :=
  onOk (_A_x env db FUEL x s WHOLE 0 b discrete 0 moment env.maxdepth) fun found =>
  match found with
  | some v => .ok (some v)
  | none =>
    if moment = 1 ∧ env.i > 0 then
      onOk (_a_x env db FUEL x s WHOLE 0 b discrete false env.maxdepth) fun a1 =>
      match a1 with
      | some a1 => .ok (some (insurance_twin env a1 discrete))
      | none => .ok (sup.whole_life_insurance x s b discrete moment)
    else .ok (sup.whole_life_insurance x s b discrete moment)

/-- Mirrors `term_insurance`: resolver, then collaborator. -/
def term_insurance (env : Env) (sup : Super) (db : DB) (x s t : Int) (b : ℚ) (moment : Int)
    (discrete : Bool) : Res :=
  onOk (_A_x env db FUEL x s t 0 b discrete 0 moment env.maxdepth) fun found =>
  match found with
  | some v => .ok (some v)
  | none => .ok (sup.term_insurance x s t b moment discrete)

/-- Mirrors `deferred_insurance`: a store-only lookup (no resolver
call), then the collaborator. -/
def deferred_insurance (_env : Env) (sup : Super) (db : DB) (x s : Int) (b : ℚ)
    (u t moment : Int) (discrete : Bool) : Res :=
  match get_A db x s u t b moment 0 discrete with
  | some A1 => .ok (some A1)
  | none => .ok (sup.deferred_insurance x s b u t moment discrete)

/-- Mirrors `endowment_insurance`: asserts `t >= 0`, maps a negative
endowment to the benefit, runs the resolver; on failure the twin branch
calls `_a_x` with a `moment` keyword the helper does not accept, which
raises a TypeError whenever that branch is reached; else the
collaborator. -/
def endowment_insurance (env : Env) (sup : Super) (db : DB) (x s t : Int) (b endowment : ℚ)
    (moment : Int) (discrete : Bool) : Res :=
  if t < 0 then .error .assertErr
  else
    let endowment := if endowment < 0 then b else endowment
    onOk (_A_x env db FUEL x s t 0 b discrete endowment moment env.maxdepth) fun found =>
    match found with
    | some v => .ok (some v)
    | none =>
      if moment = 1 ∧ endowment = b ∧ env.i > 0 then .error .typeErr
      else .ok (sup.endowment_insurance x s t b endowment moment discrete)

/-- Mirrors `whole_life_annuity`: resolver, then (for non-variance at
positive interest) the insurance twin, then the collaborator. -/
def whole_life_annuity (env : Env) (sup : Super) (db : DB) (x s : Int) (b : ℚ)
    (variance discrete : Bool) : Res :=
  onOk (_a_x env db FUEL x s WHOLE 0 b discrete variance env.maxdepth) fun found =>
  match found with
  | some v => .ok (some v)
  | none =>
    if variance = false ∧ env.i > 0 then
      onOk (_A_x env db FUEL x s WHOLE 0 b discrete 0 1 env.maxdepth) fun A1 =>
      match A1 with
      | some A1 => .ok (some (annuity_twin env A1 discrete))
      | none => .ok (sup.whole_life_annuity x s b discrete variance)
    else .ok (sup.whole_life_annuity x s b discrete variance)

/-- Mirrors `temporary_annuity`: resolver, then twin via the endowment
insurance at the same term, then the collaborator. -/
def temporary_annuity (env : Env) (sup : Super) (db : DB) (x s t : Int) (b : ℚ)
    (variance discrete : Bool) : Res :=
  onOk (_a_x env db FUEL x s t 0 b discrete variance env.maxdepth) fun found =>
  match found with
  | some v => .ok (some v)
  | none =>
    if variance = false ∧ env.i > 0 then
      onOk (_A_x env db FUEL x s t 0 b discrete b 1 env.maxdepth) fun A1 =>
      match A1 with
      | some A1 => .ok (some (annuity_twin env A1 discrete))
      | none => .ok (sup.temporary_annuity x s t b discrete variance)
    else .ok (sup.temporary_annuity x s t b discrete variance)

/-- Mirrors `deferred_annuity`: resolver, then the difference of two
non-deferred resolver calls, then the collaborator (called without the
deferral, as in the source). -/
def deferred_annuity (env : Env) (sup : Super) (db : DB) (x s t u : Int) (b : ℚ)
    (discrete : Bool) : Res :=
  onOk (_a_x env db FUEL x s t u b discrete false env.maxdepth) fun a1 =>
  match a1 with
  | some v => .ok (some v)
  | none =>
    onOk (_a_x env db FUEL x s (add_term u t) 0 b discrete false env.maxdepth) fun a2 =>
    onOk (_a_x env db FUEL x s u 0 b discrete false env.maxdepth) fun a3 =>
    match a2, a3 with
    | some a2, some a3 => .ok (some (a2 - a3))
    | _, _ => .ok (sup.deferred_annuity x s t b discrete)

/-!  State-passing view of the public getters, for the frame claims: a
call receives the store and hands it back together with the result.
The bodies contain no `db_put`, mirroring the source, in which no
derivation path writes to `self.db`. -/

/-- State-passing `q_x`. -/
def q_x_run (env : Env) (sup : Super) (db : DB) (x s t u : Int) : DB × Res :=
  (db, q_x env sup db x s t u)

/-- State-passing `p_x`. -/
def p_x_run (env : Env) (sup : Super) (db : DB) (x s t : Int) : DB × Res :=
  (db, p_x env sup db x s t)

/-- State-passing `e_x`. -/
def e_x_run (env : Env) (sup : Super) (db : DB) (x s t : Int) (curtate : Bool)
    (moment : Int) : DB × Res :=
  (db, e_x env sup db x s t curtate moment)

/-- State-passing `E_x`. -/
def E_x_run (env : Env) (sup : Super) (db : DB) (x s t : Int) (endowment : ℚ)
    (moment : Int) : DB × Res :=
  (db, E_x env sup db x s t endowment moment)

/-- State-passing `increasing_insurance`. -/
def increasing_insurance_run (env : Env) (sup : Super) (db : DB) (x s t : Int) (b : ℚ)
    (discrete : Bool) : DB × Res :=
  (db, increasing_insurance env sup db x s t b discrete)

/-- State-passing `decreasing_insurance`. -/
def decreasing_insurance_run (env : Env) (sup : Super) (db : DB) (x s t : Int) (b : ℚ)
    (discrete : Bool) : DB × Res :=
  (db, decreasing_insurance env sup db x s t b discrete)

/-- State-passing `whole_life_insurance`. -/
def whole_life_insurance_run (env : Env) (sup : Super) (db : DB) (x s : Int) (b : ℚ)
    (discrete : Bool) (moment : Int) : DB × Res :=
  (db, whole_life_insurance env sup db x s b discrete moment)

/-- State-passing `term_insurance`. -/
def term_insurance_run (env : Env) (sup : Super) (db : DB) (x s t : Int) (b : ℚ)
    (moment : Int) (discrete : Bool) : DB × Res :=
  (db, term_insurance env sup db x s t b moment discrete)

/-- State-passing `deferred_insurance`. -/
def deferred_insurance_run (env : Env) (sup : Super) (db : DB) (x s : Int) (b : ℚ)
    (u t moment : Int) (discrete : Bool) : DB × Res :=
  (db, deferred_insurance env sup db x s b u t moment discrete)

/-- State-passing `endowment_insurance`. -/
def endowment_insurance_run (env : Env) (sup : Super) (db : DB) (x s t : Int)
    (b endowment : ℚ) (moment : Int) (discrete : Bool) : DB × Res :=
  (db, endowment_insurance env sup db x s t b endowment moment discrete)

/-- State-passing `whole_life_annuity`. -/
def whole_life_annuity_run (env : Env) (sup : Super) (db : DB) (x s : Int) (b : ℚ)
    (variance discrete : Bool) : DB × Res :=
  (db, whole_life_annuity env sup db x s b variance discrete)

/-- State-passing `temporary_annuity`. -/
def temporary_annuity_run (env : Env) (sup : Super) (db : DB) (x s t : Int) (b : ℚ)
    (variance discrete : Bool) : DB × Res :=
  (db, temporary_annuity env sup db x s t b variance discrete)

/-- State-passing `deferred_annuity`. -/
def deferred_annuity_run (env : Env) (sup : Super) (db : DB) (x s t u : Int) (b : ℚ)
    (discrete : Bool) : DB × Res :=
  (db, deferred_annuity env sup db x s t u b discrete)

/-!  The derivation tracer `Blog`. -/

/-- Mirrors the `Blog` instance state: a title, the indentation bound,
the display width, and the three parallel newest-first records. -/
structure Blog where
  title : String
  levels : Int
  width : Int
  history : List String
  depths : List Int
  rules : List String
deriving DecidableEq

/-- Mirrors `Blog.__init__` (width argument minus 3, empty records). -/
def Blog.init (args : List String) (levels width : Int) : Blog :=
  { title := " *" ++ String.intercalate " " args ++ " <--"
    levels := levels
    width := width - 3
    history := []
    depths := []
    rules := [] }

/-- Mirrors `Blog.__call__`: asserts a non-empty rule, joins the
message fragments, drops exact-text duplicates, and otherwise inserts
the (message, depth, rule) triple at the front of the three records. -/
def Blog.call (b : Blog) (args : List String) (depth : Int) (rule : String) :
    Except PyErr Blog :=
  if rule = "" then .error .assertErr
  else
    let msg := String.intercalate " " args
    if msg ∈ b.history then .ok b
    else
      .ok { b with
        history := msg :: b.history
        depths := depth :: b.depths
        rules := rule :: b.rules }

/-!  Concrete instances used by the claim checks. -/

/-- Decidable equality of derivation results. -/
instance : DecidableEq Res := fun a b =>
  match a, b with
  | .ok v1, .ok v2 =>
    if h : v1 = v2 then isTrue (by rw [h])
    else isFalse (by intro hh; cases hh; exact h rfl)
  | .error e1, .error e2 =>
    if h : e1 = e2 then isTrue (by rw [h])
    else isFalse (by intro hh; cases hh; exact h rfl)
  | .ok _, .error _ => isFalse (by intro hh; cases hh)
  | .error _, .ok _ => isFalse (by intro hh; cases hh)

/-- A collaborator whose every closed form returns one half, used to
observe whether a facade method consults it. -/
def supHalf : Super :=
  { q_x := fun _ _ _ _ => some (1/2)
    p_x := fun _ _ _ => some (1/2)
    e_x := fun _ _ _ _ _ => some (1/2)
    E_x := fun _ _ _ _ _ => some (1/2)
    increasing_insurance := fun _ _ _ _ _ => some (1/2)
    decreasing_insurance := fun _ _ _ _ _ => some (1/2)
    whole_life_insurance := fun _ _ _ _ _ => some (1/2)
    term_insurance := fun _ _ _ _ _ _ => some (1/2)
    deferred_insurance := fun _ _ _ _ _ _ _ => some (1/2)
    endowment_insurance := fun _ _ _ _ _ _ _ => some (1/2)
    whole_life_annuity := fun _ _ _ _ _ => some (1/2)
    temporary_annuity := fun _ _ _ _ _ _ => some (1/2)
    deferred_annuity := fun _ _ _ _ _ => some (1/2) }

/-- Interest of five percent with recursion depth bound 1. -/
def envD1 : Env := { i := 1/20, delta := 0, maxdepth := 1 }

/-- Interest of five percent with the default depth bound 3. -/
def envD3 : Env := { i := 1/20, delta := 0, maxdepth := 3 }

attribute [local semireducible] Rat.add Rat.sub Rat.mul Rat.inv

/-!  Claim checks. -/

/-- Claim C1, counterexample: store the mortality fact `q(0, t=1) = 1/10`
and derive the survival probability for the same age and term with depth
budget 0.  The survival key is not in the store and `t = 1` is not an
algebraic sentinel, yet the resolver returns `9/10` by applying the
complement-of-mortality rule, which in the source precedes the depth
check.  This refutes the depth-zero restriction as stated. -/
theorem C1_counterexample :
    _p_x envD1 (db_put db0 (.q 0 0 1) (some (1/10))) FUEL 0 0 1 0
        = .ok (some (9/10))
    ∧ (db_put db0 (.q 0 0 1) (some (1/10))) (.p 0 1) = none
    ∧ ¬ ((1 : Int) = 0 ∨ (1 : Int) < 0) :=
  ⟨by decide, by decide, by decide⟩

/-- Claim C1, amended: with depth budget at most 0, the lifetime,
increasing-insurance, decreasing-insurance, insurance and annuity
helpers return the unknown sentinel for every key that is not a
sentinel case and misses the store; the survival helper additionally
needs the mortality complement to be absent, the mortality helper with
no deferral returns unknown on a store miss, and the pure-endowment
helper (first moment) additionally needs the collateral survival and
mortality facts to be absent - because the complement, defer/limit and
via-survival rules precede the depth check in the source. -/
theorem C1_depth_zero :
    (∀ (env : Env) (db : DB) (fuel : Nat) (x s t moment depth : Int)
        (curtate : Bool), depth ≤ 0 →
      get_e db x s t curtate moment = none →
      _e_x env db (fuel+1) x s t curtate moment depth = .ok none)
    ∧ (∀ (env : Env) (db : DB) (fuel : Nat) (x s t depth : Int) (b : ℚ)
        (discrete : Bool), depth ≤ 0 → t ≠ 0 →
      get_IA db x s t b discrete = none →
      _IA_x env db (fuel+1) x s t b discrete depth = .ok none)
    ∧ (∀ (env : Env) (db : DB) (fuel : Nat) (x s t depth : Int) (b : ℚ)
        (discrete : Bool), depth ≤ 0 → t ≠ 0 →
      get_DA db x s t 1 discrete = none →
      _DA_x env db (fuel+1) x s t b discrete depth = .ok none)
    ∧ (∀ (env : Env) (db : DB) (fuel : Nat) (x s t u moment depth : Int)
        (b endowment : ℚ) (discrete : Bool), depth ≤ 0 →
      ¬ (endowment = b ∧ t = 1 ∧ discrete = true) →
      get_A db x s u t b moment endowment discrete = none →
      _A_x env db (fuel+1) x s t u b discrete endowment moment depth = .ok none)
    ∧ (∀ (env : Env) (db : DB) (fuel : Nat) (x s t u depth : Int) (b : ℚ)
        (discrete variance : Bool), depth ≤ 0 →
      ¬ (t = 1 ∧ u = 0 ∧ discrete = true) → t ≠ 0 →
      get_a db x s u t b variance discrete = none →
      _a_x env db (fuel+1) x s t u b discrete variance depth = .ok none)
    ∧ (∀ (env : Env) (db : DB) (fuel : Nat) (x s t depth : Int), depth ≤ 0 →
      get_p db x s t = none → get_q db x s t 0 = none →
      _p_x env db (fuel+1) x s t depth = .ok none)
    ∧ (∀ (env : Env) (db : DB) (fuel : Nat) (x s t depth : Int), depth ≤ 0 →
      0 < t → get_q db x s t 0 = none →
      _q_x env db (fuel+1) x s t 0 depth = .ok none)
    ∧ (∀ (env : Env) (db : DB) (fuel : Nat) (x s t depth : Int)
        (endowment : ℚ), depth ≤ 0 → 0 < t →
      get_E db x s t endowment 1 = none → get_p db x s t = none →
      get_q db x s t 0 = none →
      _E_x env db (fuel+2) x s t endowment 1 depth = .ok none) := by
  refine ⟨?_, ?_, ?_, ?_, ?_, ?_, ?_, ?_⟩
  · intro env db fuel x s t moment depth curtate hd hg
    simp [_e_x, hg, hd]
  · intro env db fuel x s t depth b discrete hd ht hg
    simp [_IA_x, hg, hd, ht]
  · intro env db fuel x s t depth b discrete hd ht hg
    simp [_DA_x, hg, hd, ht]
  · intro env db fuel x s t u moment depth b endowment discrete hd hs hg
    simp [_A_x, hg, hd, hs]
  · intro env db fuel x s t u depth b discrete variance hd hs ht hg
    simp [_a_x, hg, hd, hs, ht]
  · intro env db fuel x s t depth hd hg hq
    simp [_p_x, hg, hq, hd]
  · intro env db fuel x s t depth hd ht hg
    simp [_q_x, hg, hd, ht.ne', not_lt.mpr ht.le]
  · intro env db fuel x s t depth endowment hd ht hg hp hq
    have h1 : depth - 1 ≤ 0 := by omega
    simp [_E_x, _p_x, hg, hp, hq, hd, h1, ht.ne', not_lt.mpr ht.le]

/-- Claim C1, witness: the depth-zero theorem applied on the empty store
at age 0, term 10, depth 0, for every kind. -/
theorem C1_depth_zero_witness :
    _e_x envD1 db0 7 0 0 10 false 1 0 = .ok none
    ∧ _IA_x envD1 db0 7 0 0 10 1 true 0 = .ok none
    ∧ _DA_x envD1 db0 7 0 0 10 1 true 0 = .ok none
    ∧ _A_x envD1 db0 7 0 0 10 0 1 true 0 1 0 = .ok none
    ∧ _a_x envD1 db0 7 0 0 10 0 1 true false 0 = .ok none
    ∧ _p_x envD1 db0 7 0 0 10 0 = .ok none
    ∧ _q_x envD1 db0 7 0 0 10 0 0 = .ok none
    ∧ _E_x envD1 db0 7 0 0 10 1 1 0 = .ok none :=
  ⟨C1_depth_zero.1 envD1 db0 6 0 0 10 1 0 false (by decide) (by decide),
   C1_depth_zero.2.1 envD1 db0 6 0 0 10 0 1 true (by decide) (by decide)
     (by decide),
   C1_depth_zero.2.2.1 envD1 db0 6 0 0 10 0 1 true (by decide) (by decide)
     (by decide),
   C1_depth_zero.2.2.2.1 envD1 db0 6 0 0 10 0 1 0 1 0 true (by decide)
     (by decide) (by decide),
   C1_depth_zero.2.2.2.2.1 envD1 db0 6 0 0 10 0 0 1 true false (by decide)
     (by decide) (by decide) (by decide),
   C1_depth_zero.2.2.2.2.2.1 envD1 db0 6 0 0 10 0 (by decide) (by decide)
     (by decide),
   C1_depth_zero.2.2.2.2.2.2.1 envD1 db0 6 0 0 10 0 (by decide) (by decide)
     (by decide),
   C1_depth_zero.2.2.2.2.2.2.2 envD1 db0 5 0 0 10 0 1 (by decide) (by decide)
     (by decide) (by decide) (by decide)⟩

/-- Claim C2, evaluation at the failing inputs: (1) with a whole-life
annuity fact stored for ages 0 and 1, the public term-insurance method
at term 1 reaches the one-year discrete insurance branch with a resolved
survival probability and raises a TypeError (the source's trace call
multiplies two strings); (2) with a whole-life insurance fact stored at
age 1, the deferred-insurance backward branch of the insurance helper
resolves its recursive insurance value and then reads the local `p`,
which is unassigned on that path, raising UnboundLocalError.  Both
refute the no-exception property. -/
theorem C2_exception_evaluation :
    term_insurance envD1 supHalf
        (db_put (db_put db0 (.a 0 0 WHOLE false true) (some 20))
          (.a 1 0 WHOLE false true) (some 19)) 0 0 1 1 1 true
      = .error .typeErr
    ∧ _A_x envD1 (db_put db0 (.A 1 0 WHOLE 1 0 true) (some (3/10))) FUEL
        0 0 WHOLE 1 1 true 0 1 1 = .error .unboundLocal :=
  ⟨by decide, by decide⟩

/-- Claim C3, evaluation at the failing input: with the term insurance
`A(0, t=3) = 1/10` and the increasing insurance `IA(0, t=3) = 1/5` both
stored (hence both derivable at depth 1), the claimed identity (a) would
give `n*A - IA = 4 * 1/10 - 1/5 = 1/5`; the decreasing-insurance helper
instead returns the unknown sentinel, because the source computes the
collateral of identity (a) by calling `_DA_x` itself (at the same age
and term) where its own trace message says `IA`, and computes the
backward collateral by calling `_IA_x` where its trace message names the
remaining decreasing insurance. -/
theorem C3_DA_divergence :
    _A_x envD1 (db_put (db_put db0 (.A 0 0 3 1 0 true) (some (1/10)))
        (.IA 0 3 true) (some (1/5))) FUEL 0 0 3 0 1 true 0 1 1
      = .ok (some (1/10))
    ∧ _IA_x envD1 (db_put (db_put db0 (.A 0 0 3 1 0 true) (some (1/10)))
        (.IA 0 3 true) (some (1/5))) FUEL 0 0 3 1 true 1
      = .ok (some (1/5))
    ∧ ((3 : ℚ) + 1) * (1/10) - 1/5 = 1/5
    ∧ _DA_x envD1 (db_put (db_put db0 (.A 0 0 3 1 0 true) (some (1/10)))
        (.IA 0 3 true) (some (1/5))) FUEL 0 0 3 1 true 1
      = .ok none :=
  ⟨by decide, by decide, by decide, by decide⟩

/-- Claim C4, confirmed: at positive interest, when the bounded annuity
resolver returns unknown and the insurance resolver (at full depth)
yields `A`, the public whole-life annuity returns `(1 - A) / d` with
`d = i / (1 + i)`; symmetrically, when the insurance resolver returns
unknown and the annuity resolver yields `a`, the public whole-life
insurance returns `1 - d * a`.  In both facades the twin relation is
tried only after the resolver has returned unknown and before the
collaborator's closed form (whose value does not appear in the
conclusion). -/
theorem C4_twin_relation :
    (∀ (env : Env) (sup : Super) (db : DB) (x s : Int) (b A : ℚ),
      0 < env.i →
      _a_x env db FUEL x s WHOLE 0 b true false env.maxdepth = .ok none →
      _A_x env db FUEL x s WHOLE 0 b true 0 1 env.maxdepth = .ok (some A) →
      whole_life_annuity env sup db x s b false true
        = .ok (some ((1 - A) / (env.i / (1 + env.i)))))
    ∧ (∀ (env : Env) (sup : Super) (db : DB) (x s : Int) (b a : ℚ),
      0 < env.i →
      _A_x env db FUEL x s WHOLE 0 b true 0 1 env.maxdepth = .ok none →
      _a_x env db FUEL x s WHOLE 0 b true false env.maxdepth = .ok (some a) →
      whole_life_insurance env sup db x s b true 1
        = .ok (some (1 - (env.i / (1 + env.i)) * a))) := by
  constructor
  · intro env sup db x s b A hi ha hA
    unfold whole_life_annuity
    rw [ha]
    simp [hi, hA, annuity_twin]
  · intro env sup db x s b a hi hA ha
    unfold whole_life_insurance
    rw [hA]
    simp [hi, ha, insurance_twin]

/-- Claim C4, witness: with only `A(0) = 3/10` stored and `i = 1/20`
(`d = 1/21`), the whole-life annuity facade returns
`(1 - 3/10) / (1/21) = 147/10`; a directly-set annuity value `147/10`
reads back as exactly `147/10`, so the two agree within `1e-9`; and
symmetrically with only `a(0) = 147/10` stored the whole-life insurance
facade returns `1 - (1/21) * (147/10) = 3/10`. -/
theorem C4_twin_relation_witness :
    whole_life_annuity envD1 supHalf
        (db_put db0 (.A 0 0 WHOLE 1 0 true) (some (3/10))) 0 0 1 false true
      = .ok (some (147/10))
    ∧ whole_life_insurance envD1 supHalf
        (db_put db0 (.a 0 0 WHOLE false true) (some (147/10))) 0 0 1 true 1
      = .ok (some (3/10))
    ∧ Except.map (fun db2 => get_a db2 0 0 0 WHOLE 1 false true)
        (set_a db0 (some (147/10)) 0 0 WHOLE 0 1 false true)
      = .ok (some (147/10))
    ∧ |(147 : ℚ)/10 - 147/10| ≤ 1/1000000000 := by
  refine ⟨?_, ?_, by decide, by norm_num⟩
  · have h := C4_twin_relation.1 envD1 supHalf
      (db_put db0 (.A 0 0 WHOLE 1 0 true) (some (3/10))) 0 0 1 (3/10)
      (by norm_num [envD1]) (by decide) (by decide)
    rw [h]
    norm_num [envD1]
  · have h := C4_twin_relation.2 envD1 supHalf
      (db_put db0 (.a 0 0 WHOLE false true) (some (147/10))) 0 0 1 (147/10)
      (by norm_num [envD1]) (by decide) (by decide)
    rw [h]
    norm_num [envD1]

/-- Claim C5, counterexample: on the empty store the mortality resolver
returns unknown and the collaborator's closed form for the mortality
rate returns one half, yet the public mortality method returns unknown:
the mortality facade never consults the collaborator, refuting the
claim that every public computed method of the seven families falls
back to the collaborator's closed form. -/
theorem C5_counterexample :
    _q_x envD1 db0 FUEL 0 0 1 0 envD1.maxdepth = .ok none
    ∧ supHalf.q_x 0 0 1 0 = some (1/2)
    ∧ q_x envD1 supHalf db0 0 0 1 0 = .ok none :=
  ⟨by decide, by decide, by decide⟩

/-- Claim C5, amended: the insurance and annuity family methods run the
derive-then-fallback pipeline - when the resolver yields a value the
collaborator's value does not enter the result, and when the resolver
(and, for deferred annuities, the difference decomposition; for the
twin-carrying facades, outside the twin guard) yields unknown the
method returns the collaborator's closed-form value.  The mortality,
survival, lifetime and pure-endowment methods never consult the
collaborator: their result is independent of it, and an unknown from
the resolver is returned as unknown. -/
theorem C5_pipeline :
    (∀ (env : Env) (s1 s2 : Super) (db : DB) (x s t u : Int),
      q_x env s1 db x s t u = q_x env s2 db x s t u)
    ∧ (∀ (env : Env) (sup : Super) (db : DB) (x s t u : Int),
      _q_x env db FUEL x s t u env.maxdepth = .ok none →
      q_x env sup db x s t u = .ok none)
    ∧ (∀ (env : Env) (s1 s2 : Super) (db : DB) (x s t : Int),
      p_x env s1 db x s t = p_x env s2 db x s t)
    ∧ (∀ (env : Env) (sup : Super) (db : DB) (x s t : Int),
      _p_x env db FUEL x s t env.maxdepth = .ok none →
      p_x env sup db x s t = .ok none)
    ∧ (∀ (env : Env) (s1 s2 : Super) (db : DB) (x s t moment : Int)
        (curtate : Bool),
      e_x env s1 db x s t curtate moment = e_x env s2 db x s t curtate moment)
    ∧ (∀ (env : Env) (sup : Super) (db : DB) (x s t moment : Int)
        (curtate : Bool),
      _e_x env db FUEL x s t curtate moment env.maxdepth = .ok none →
      e_x env sup db x s t curtate moment = .ok none)
    ∧ (∀ (env : Env) (s1 s2 : Super) (db : DB) (x s t moment : Int)
        (endowment : ℚ),
      E_x env s1 db x s t endowment moment
        = E_x env s2 db x s t endowment moment)
    ∧ (∀ (env : Env) (sup : Super) (db : DB) (x s t moment : Int)
        (endowment : ℚ), moment ≠ VARIANCE →
      _E_x env db FUEL x s t endowment moment env.maxdepth = .ok none →
      E_x env sup db x s t endowment moment = .ok none)
    ∧ (∀ (env : Env) (sup : Super) (db : DB) (x s t moment : Int) (b : ℚ)
        (discrete : Bool) (v : ℚ),
      _A_x env db FUEL x s t 0 b discrete 0 moment env.maxdepth
          = .ok (some v) →
      term_insurance env sup db x s t b moment discrete = .ok (some v))
    ∧ (∀ (env : Env) (sup : Super) (db : DB) (x s t moment : Int) (b : ℚ)
        (discrete : Bool),
      _A_x env db FUEL x s t 0 b discrete 0 moment env.maxdepth = .ok none →
      term_insurance env sup db x s t b moment discrete
        = .ok (sup.term_insurance x s t b moment discrete))
    ∧ (∀ (env : Env) (sup : Super) (db : DB) (x s t : Int) (b : ℚ)
        (discrete : Bool) (v : ℚ),
      _IA_x env db FUEL x s t b discrete env.maxdepth = .ok (some v) →
      increasing_insurance env sup db x s t b discrete = .ok (some v))
    ∧ (∀ (env : Env) (sup : Super) (db : DB) (x s t : Int) (b : ℚ)
        (discrete : Bool),
      _IA_x env db FUEL x s t b discrete env.maxdepth = .ok none →
      increasing_insurance env sup db x s t b discrete
        = .ok (sup.increasing_insurance x s t b discrete))
    ∧ (∀ (env : Env) (sup : Super) (db : DB) (x s t : Int) (b : ℚ)
        (discrete : Bool) (v : ℚ), t ≠ 0 →
      _DA_x env db FUEL x s t b discrete env.maxdepth = .ok (some v) →
      decreasing_insurance env sup db x s t b discrete = .ok (some v))
    ∧ (∀ (env : Env) (sup : Super) (db : DB) (x s t : Int) (b : ℚ)
        (discrete : Bool), t ≠ 0 →
      _DA_x env db FUEL x s t b discrete env.maxdepth = .ok none →
      decreasing_insurance env sup db x s t b discrete
        = .ok (sup.decreasing_insurance x s t b discrete))
    ∧ (∀ (env : Env) (sup : Super) (db : DB) (x s moment : Int) (b : ℚ)
        (discrete : Bool) (v : ℚ),
      _A_x env db FUEL x s WHOLE 0 b discrete 0 moment env.maxdepth
          = .ok (some v) →
      whole_life_insurance env sup db x s b discrete moment = .ok (some v))
    ∧ (∀ (env : Env) (sup : Super) (db : DB) (x s moment : Int) (b : ℚ)
        (discrete : Bool),
      _A_x env db FUEL x s WHOLE 0 b discrete 0 moment env.maxdepth
          = .ok none →
      ¬ (moment = 1 ∧ 0 < env.i) →
      whole_life_insurance env sup db x s b discrete moment
        = .ok (sup.whole_life_insurance x s b discrete moment))
    ∧ (∀ (env : Env) (sup : Super) (db : DB) (x s u t moment : Int) (b : ℚ)
        (discrete : Bool) (v : ℚ),
      get_A db x s u t b moment 0 discrete = some v →
      deferred_insurance env sup db x s b u t moment discrete = .ok (some v))
    ∧ (∀ (env : Env) (sup : Super) (db : DB) (x s u t moment : Int) (b : ℚ)
        (discrete : Bool),
      get_A db x s u t b moment 0 discrete = none →
      deferred_insurance env sup db x s b u t moment discrete
        = .ok (sup.deferred_insurance x s b u t moment discrete))
    ∧ (∀ (env : Env) (sup : Super) (db : DB) (x s t moment : Int)
        (b endowment : ℚ) (discrete : Bool) (v : ℚ),
      0 ≤ t → 0 ≤ endowment →
      _A_x env db FUEL x s t 0 b discrete endowment moment env.maxdepth
          = .ok (some v) →
      endowment_insurance env sup db x s t b endowment moment discrete
        = .ok (some v))
    ∧ (∀ (env : Env) (sup : Super) (db : DB) (x s t moment : Int)
        (b endowment : ℚ) (discrete : Bool),
      0 ≤ t → 0 ≤ endowment →
      _A_x env db FUEL x s t 0 b discrete endowment moment env.maxdepth
          = .ok none →
      ¬ (moment = 1 ∧ endowment = b ∧ 0 < env.i) →
      endowment_insurance env sup db x s t b endowment moment discrete
        = .ok (sup.endowment_insurance x s t b endowment moment discrete))
    ∧ (∀ (env : Env) (sup : Super) (db : DB) (x s : Int) (b : ℚ)
        (variance discrete : Bool) (v : ℚ),
      _a_x env db FUEL x s WHOLE 0 b discrete variance env.maxdepth
          = .ok (some v) →
      whole_life_annuity env sup db x s b variance discrete = .ok (some v))
    ∧ (∀ (env : Env) (sup : Super) (db : DB) (x s : Int) (b : ℚ)
        (variance discrete : Bool),
      _a_x env db FUEL x s WHOLE 0 b discrete variance env.maxdepth
          = .ok none →
      ¬ (variance = false ∧ 0 < env.i) →
      whole_life_annuity env sup db x s b variance discrete
        = .ok (sup.whole_life_annuity x s b discrete variance))
    ∧ (∀ (env : Env) (sup : Super) (db : DB) (x s t : Int) (b : ℚ)
        (variance discrete : Bool) (v : ℚ),
      _a_x env db FUEL x s t 0 b discrete variance env.maxdepth
          = .ok (some v) →
      temporary_annuity env sup db x s t b variance discrete = .ok (some v))
    ∧ (∀ (env : Env) (sup : Super) (db : DB) (x s t : Int) (b : ℚ)
        (variance discrete : Bool),
      _a_x env db FUEL x s t 0 b discrete variance env.maxdepth = .ok none →
      ¬ (variance = false ∧ 0 < env.i) →
      temporary_annuity env sup db x s t b variance discrete
        = .ok (sup.temporary_annuity x s t b discrete variance))
    ∧ (∀ (env : Env) (sup : Super) (db : DB) (x s t u : Int) (b : ℚ)
        (discrete : Bool) (v : ℚ),
      _a_x env db FUEL x s t u b discrete false env.maxdepth = .ok (some v) →
      deferred_annuity env sup db x s t u b discrete = .ok (some v))
    ∧ (∀ (env : Env) (sup : Super) (db : DB) (x s t u : Int) (b : ℚ)
        (discrete : Bool) (w : Option ℚ),
      _a_x env db FUEL x s t u b discrete false env.maxdepth = .ok none →
      _a_x env db FUEL x s (add_term u t) 0 b discrete false env.maxdepth
          = .ok none →
      _a_x env db FUEL x s u 0 b discrete false env.maxdepth = .ok w →
      deferred_annuity env sup db x s t u b discrete
        = .ok (sup.deferred_annuity x s t b discrete)) := by
  refine ⟨?_, ?_, ?_, ?_, ?_, ?_, ?_, ?_, ?_, ?_, ?_, ?_, ?_, ?_, ?_, ?_,
    ?_, ?_, ?_, ?_, ?_, ?_, ?_, ?_, ?_, ?_⟩
  · intro env s1 s2 db x s t u; rfl
  · intro env sup db x s t u h; unfold q_x; exact h
  · intro env s1 s2 db x s t; rfl
  · intro env sup db x s t h; unfold p_x; exact h
  · intro env s1 s2 db x s t moment curtate; rfl
  · intro env sup db x s t moment curtate h; unfold e_x; exact h
  · intro env s1 s2 db x s t moment endowment; rfl
  · intro env sup db x s t moment endowment hm h
    unfold E_x
    rw [if_neg hm]
    exact h
  · intro env sup db x s t moment b discrete v h
    unfold term_insurance; rw [h]; simp
  · intro env sup db x s t moment b discrete h
    unfold term_insurance; rw [h]; simp
  · intro env sup db x s t b discrete v h
    unfold increasing_insurance; rw [h]; simp
  · intro env sup db x s t b discrete h
    unfold increasing_insurance; rw [h]; simp
  · intro env sup db x s t b discrete v ht h
    unfold decreasing_insurance; rw [if_neg ht, h]; simp
  · intro env sup db x s t b discrete ht h
    unfold decreasing_insurance; rw [if_neg ht, h]; simp
  · intro env sup db x s moment b discrete v h
    unfold whole_life_insurance; rw [h]; simp
  · intro env sup db x s moment b discrete h hg
    unfold whole_life_insurance; rw [h]; simp [hg]
  · intro env sup db x s u t moment b discrete v h
    unfold deferred_insurance; rw [h]
  · intro env sup db x s u t moment b discrete h
    unfold deferred_insurance; rw [h]
  · intro env sup db x s t moment b endowment discrete v ht he h
    unfold endowment_insurance
    rw [if_neg (not_lt.mpr ht)]
    simp only [not_lt.mpr he, if_false]
    rw [h]
    simp
  · intro env sup db x s t moment b endowment discrete ht he h hg
    unfold endowment_insurance
    rw [if_neg (not_lt.mpr ht)]
    simp only [not_lt.mpr he, if_false]
    rw [h]
    simp [hg]
  · intro env sup db x s b variance discrete v h
    unfold whole_life_annuity; rw [h]; simp
  · intro env sup db x s b variance discrete h hg
    unfold whole_life_annuity; rw [h]; simp [hg]
  · intro env sup db x s t b variance discrete v h
    unfold temporary_annuity; rw [h]; simp
  · intro env sup db x s t b variance discrete h hg
    unfold temporary_annuity; rw [h]; simp [hg]
  · intro env sup db x s t u b discrete v h
    unfold deferred_annuity; rw [h]; simp
  · intro env sup db x s t u b discrete w h h2 h3
    unfold deferred_annuity; rw [h]
    simp only [onOk_ok]
    rw [h2, h3]
    simp

/-- Claim C5, witness: the amended pipeline applied at concrete inputs:
on the empty store at depth 1, the term-insurance resolver returns
unknown at term 2 and the facade returns the collaborator's value; the
mortality facade returns unknown. -/
theorem C5_pipeline_witness :
    term_insurance envD1 supHalf db0 0 0 2 1 1 true = .ok (some (1/2))
    ∧ q_x envD1 supHalf db0 0 0 1 0 = .ok none := by
  constructor
  · have h := C5_pipeline.2.2.2.2.2.2.2.2.2.1 envD1 supHalf db0 0 0 2 1 1 true
      (by decide)
    rw [h]
    decide
  · exact C5_pipeline.2.1 envD1 supHalf db0 0 0 1 0 (by decide)

/-- Claim C6, counterexample: with `p(x, t=u) = 99/100` and
`q(x+u, t=0) = 2/100` stored, deriving the deferred mortality with
deferral `u = 1` and term `t = 0` returns the `t = 0` base case value 0,
not the product `99/100 * 2/100`, refuting the claim for arbitrary
terms. -/
theorem C6_counterexample :
    _q_x envD3 (db_put (db_put db0 (.p 0 1) (some (99/100)))
        (.q 1 0 0) (some (2/100))) FUEL 0 0 0 1 3
      = .ok (some 0)
    ∧ (0 : ℚ) ≠ 99/100 * (2/100) :=
  ⟨by decide, by norm_num⟩

/-- Claim C6, amended: for every age `x`, deferral `u > 0` and term
`t > 0`, with exactly the facts `p(x, t=u) = 99/100` and
`q(x+u, t=t) = 2/100` stored, deriving the deferred mortality (at any
depth budget, since the defer rule precedes the depth check) returns
the product `99/100 * 2/100 = 0.0198`. -/
theorem C6_deferred_mortality (env : Env) (x u t depth : Int) (fuel : Nat)
    (hu : 0 < u) (ht : 0 < t) :
    _q_x env (db_put (db_put db0 (.p x u) (some (99/100)))
        (.q (x + u) 0 t) (some (2/100)))
      (fuel + 2) x 0 t u depth = .ok (some (99/100 * (2/100))) := by
  have hu0 : u ≠ 0 := hu.ne'
  have ht0 : t ≠ 0 := ht.ne'
  have hxu : x + 0 ≠ x + u := by omega
  simp [_q_x, _p_x, get_q, get_p, db_put, db0, hu0, ht0, hu, ht, hxu,
    not_lt.mpr ht.le, not_lt.mpr hu.le]

/-- Claim C6, witness: the deferred-mortality identity at age 0,
deferral 1, term 2, depth 3. -/
theorem C6_deferred_mortality_witness :
    _q_x envD3 (db_put (db_put db0 (.p 0 1) (some (99/100)))
        (.q 1 0 2) (some (2/100))) (46 + 2) 0 0 2 1 3
      = .ok (some (99/100 * (2/100))) :=
  C6_deferred_mortality envD3 0 1 2 3 46 (by norm_num) (by norm_num)

/-- Claim C7, counterexample: the survival setter stores a value at
`t = 0`, but the store-only getter intercepts `t = 0` as an algebraic
sentinel and returns 1, not the stored value, refuting the round trip
for every kind and key. -/
theorem C7_counterexample :
    get_p (set_p db0 (some (1/2)) 0 0 0) 0 0 0 = some 1
    ∧ (1 : ℚ) ≠ 1/2 :=
  ⟨by decide, by norm_num⟩

/-- Claim C7, amended: set-then-get returns the exact stored value for
mortality, lifetime, and (for `t > 0`) survival keys without further
conditions; for pure endowment when the endowment amount is nonzero;
for increasing/decreasing insurance and annuities when the benefit is
nonzero; and for insurance when the benefit is nonzero and `t` is not
the `t = 0` sentinel.  The absence sentinel removes the fact for the
mortality, survival and lifetime setters, and for the insurance setter
with benefit 1 and nonzero endowment; the remaining setters divide the
value by the benefit or endowment amount first and so reject the
absence sentinel with a TypeError. -/
theorem C7_round_trip :
    (∀ (db : DB) (v : ℚ) (x s t u : Int),
      get_q (set_q db (some v) x s t u) x s t u = some v
      ∧ get_q (set_q db none x s t u) x s t u = none)
    ∧ (∀ (db : DB) (v : ℚ) (x s t : Int), 0 < t →
      get_p (set_p db (some v) x s t) x s t = some v
      ∧ get_p (set_p db none x s t) x s t = none)
    ∧ (∀ (db : DB) (v : ℚ) (x s t moment : Int) (curtate : Bool),
      get_e (set_e db (some v) x s t curtate moment) x s t curtate moment
        = some v
      ∧ get_e (set_e db none x s t curtate moment) x s t curtate moment
        = none)
    ∧ (∀ (db : DB) (v : ℚ) (x s t moment : Int) (endowment : ℚ),
      endowment ≠ 0 →
      Except.map (fun db2 => get_E db2 x s t endowment moment)
          (set_E db (some v) x s t endowment moment) = .ok (some v)
      ∧ set_E db none x s t endowment moment = .error .typeErr)
    ∧ (∀ (db : DB) (v : ℚ) (x s t : Int) (b : ℚ) (discrete : Bool), b ≠ 0 →
      Except.map (fun db2 => get_IA db2 x s t b discrete)
          (set_IA db (some v) x s t b discrete) = .ok (some v)
      ∧ set_IA db none x s t b discrete = .error .typeErr)
    ∧ (∀ (db : DB) (v : ℚ) (x s t : Int) (b : ℚ) (discrete : Bool), b ≠ 0 →
      Except.map (fun db2 => get_DA db2 x s t b discrete)
          (set_DA db (some v) x s t b discrete) = .ok (some v)
      ∧ set_DA db none x s t b discrete = .error .typeErr)
    ∧ (∀ (db : DB) (v : ℚ) (x s t u : Int) (b : ℚ)
        (variance discrete : Bool), b ≠ 0 →
      Except.map (fun db2 => get_a db2 x s u t b variance discrete)
          (set_a db (some v) x s t u b variance discrete) = .ok (some v)
      ∧ set_a db none x s t u b variance discrete = .error .typeErr)
    ∧ (∀ (db : DB) (v : ℚ) (x s t u moment : Int) (b endowment : ℚ)
        (discrete : Bool), b ≠ 0 → t ≠ 0 →
      Except.map (fun db2 => get_A db2 x s u t b moment endowment discrete)
          (set_A db (some v) x s t u b moment endowment discrete)
        = .ok (some v))
    ∧ (∀ (db : DB) (x s t u moment : Int) (endowment : ℚ)
        (discrete : Bool), endowment ≠ 0 → t ≠ 0 →
      Except.map (fun db2 => get_A db2 x s u t 1 moment endowment discrete)
          (set_A db none x s t u 1 moment endowment discrete)
        = .ok none)
    ∧ (∀ (v : ℚ) (x s t u moment : Int) (endowment : ℚ)
        (discrete : Bool), 0 < endowment → endowment ≠ 1 → t ≠ 0 →
      Except.map (fun db2 => get_A db2 x s u t 0 moment endowment discrete)
          (set_A db0 (some v) x s t u 0 moment endowment discrete)
        = .ok none) := by
  refine ⟨?_, ?_, ?_, ?_, ?_, ?_, ?_, ?_, ?_, ?_⟩
  · intro db v x s t u
    constructor <;> simp [get_q, set_q, db_put]
  · intro db v x s t ht
    constructor <;> simp [get_p, set_p, db_put, ht.ne', not_lt.mpr ht.le]
  · intro db v x s t moment curtate
    constructor <;> simp [get_e, set_e, db_put]
  · intro db v x s t moment endowment he
    constructor
    · simp [get_E, set_E, db_put, pdiv, he, Except.map, onOk,
        div_mul_cancel₀]
    · rfl
  · intro db v x s t b discrete hb
    constructor
    · simp [get_IA, set_IA, db_put, pdiv, hb, Except.map, onOk,
        div_mul_cancel₀]
    · rfl
  · intro db v x s t b discrete hb
    constructor
    · simp [get_DA, set_DA, db_put, pdiv, hb, Except.map, onOk,
        div_mul_cancel₀]
    · rfl
  · intro db v x s t u b variance discrete hb
    constructor
    · simp [get_a, set_a, db_put, pdiv, hb, Except.map, onOk,
        div_mul_cancel₀]
    · rfl
  · intro db v x s t u moment b endowment discrete hb ht
    simp only [set_A, get_A]
    by_cases hE : (if endowment < 0 then b else endowment) = 0
    · rw [if_pos hE, hE]
      simp [pdiv, hb, db_put, ht, Except.map, onOk, zero_div,
        div_mul_cancel₀]
    · rw [if_neg hE, if_neg hb]
      by_cases hb1 : b = 1
      · rw [if_pos hb1, hb1]
        by_cases h1E : (1 : ℚ) = (if endowment < 0 then b else endowment)
        · simp [db_put, ht, Except.map, ← h1E]
        · simp [db_put, ht, Except.map, h1E, div_one]
      · rw [if_neg hb1]
        by_cases hbE : b = (if endowment < 0 then b else endowment)
        · simp [pdiv, hb, db_put, ht, Except.map, onOk, ← hbE,
            div_self hb, div_mul_cancel₀]
        · simp [pdiv, hb, db_put, ht, Except.map, onOk, hbE,
            div_mul_cancel₀]
  · intro db x s t u moment endowment discrete he ht
    simp only [set_A, get_A]
    have hE : ¬ (if endowment < 0 then (1:ℚ) else endowment) = 0 := by
      by_cases hlt : endowment < 0 <;> simp [hlt, he]
    rw [if_neg hE]
    simp [db_put, ht, Except.map]
  · intro v x s t u moment endowment discrete he h1 ht
    simp only [set_A, get_A]
    rw [if_neg (not_lt.mpr he.le)]
    rw [if_neg he.ne']
    simp [pdiv, he.ne', db_put, db0, ht, Except.map, onOk, h1.symm]

/-- Claim C7, witness: the amended round trips at concrete inputs. -/
theorem C7_round_trip_witness :
    get_q (set_q db0 (some (1/4)) 0 0 1 0) 0 0 1 0 = some (1/4)
    ∧ get_p (set_p db0 (some (1/4)) 0 0 2) 0 0 2 = some (1/4)
    ∧ get_e (set_e db0 (some (1/4)) 0 0 5 true 1) 0 0 5 true 1 = some (1/4)
    ∧ Except.map (fun db2 => get_E db2 0 0 5 2 1)
        (set_E db0 (some (1/4)) 0 0 5 2 1) = .ok (some (1/4))
    ∧ Except.map (fun db2 => get_IA db2 0 0 5 2 true)
        (set_IA db0 (some (1/4)) 0 0 5 2 true) = .ok (some (1/4))
    ∧ Except.map (fun db2 => get_DA db2 0 0 5 2 true)
        (set_DA db0 (some (1/4)) 0 0 5 2 true) = .ok (some (1/4))
    ∧ Except.map (fun db2 => get_a db2 0 0 0 5 2 false true)
        (set_a db0 (some (1/4)) 0 0 5 0 2 false true) = .ok (some (1/4))
    ∧ Except.map (fun db2 => get_A db2 0 0 0 5 2 1 3 true)
        (set_A db0 (some (1/4)) 0 0 5 0 2 1 3 true) = .ok (some (1/4))
    ∧ Except.map (fun db2 => get_A db2 0 0 0 5 1 1 3 true)
        (set_A db0 none 0 0 5 0 1 1 3 true) = .ok none
    ∧ Except.map (fun db2 => get_A db2 0 0 0 5 0 1 3 true)
        (set_A db0 (some (1/4)) 0 0 5 0 0 1 3 true) = .ok none :=
  ⟨(C7_round_trip.1 db0 (1/4) 0 0 1 0).1,
   (C7_round_trip.2.1 db0 (1/4) 0 0 2 (by norm_num)).1,
   (C7_round_trip.2.2.1 db0 (1/4) 0 0 5 1 true).1,
   (C7_round_trip.2.2.2.1 db0 (1/4) 0 0 5 1 2 (by norm_num)).1,
   (C7_round_trip.2.2.2.2.1 db0 (1/4) 0 0 5 2 true (by norm_num)).1,
   (C7_round_trip.2.2.2.2.2.1 db0 (1/4) 0 0 5 2 true (by norm_num)).1,
   (C7_round_trip.2.2.2.2.2.2.1 db0 (1/4) 0 0 5 0 2 false true
     (by norm_num)).1,
   C7_round_trip.2.2.2.2.2.2.2.1 db0 (1/4) 0 0 5 0 1 2 3 true (by norm_num)
     (by norm_num),
   C7_round_trip.2.2.2.2.2.2.2.2.1 db0 0 0 5 0 1 3 true (by norm_num)
     (by norm_num),
   C7_round_trip.2.2.2.2.2.2.2.2.2 (1/4) 0 0 5 0 1 3 true (by norm_num)
     (by norm_num) (by norm_num)⟩

/-- Claim C8, confirmed: every public computed getter, viewed as a
state-passing call, hands the store back unchanged, and a second call
on the handed-back store returns the identical result.  This mirrors
the source, in which no derivation path contains a `db_put`. -/
theorem C8_store_frame :
    ∀ (env : Env) (sup : Super) (db : DB),
    (∀ x s t u, (q_x_run env sup db x s t u).1 = db
      ∧ (q_x_run env sup (q_x_run env sup db x s t u).1 x s t u).2
          = (q_x_run env sup db x s t u).2)
    ∧ (∀ x s t, (p_x_run env sup db x s t).1 = db
      ∧ (p_x_run env sup (p_x_run env sup db x s t).1 x s t).2
          = (p_x_run env sup db x s t).2)
    ∧ (∀ x s t curtate moment, (e_x_run env sup db x s t curtate moment).1 = db
      ∧ (e_x_run env sup (e_x_run env sup db x s t curtate moment).1
            x s t curtate moment).2
          = (e_x_run env sup db x s t curtate moment).2)
    ∧ (∀ x s t endowment moment,
        (E_x_run env sup db x s t endowment moment).1 = db
      ∧ (E_x_run env sup (E_x_run env sup db x s t endowment moment).1
            x s t endowment moment).2
          = (E_x_run env sup db x s t endowment moment).2)
    ∧ (∀ x s t b discrete,
        (increasing_insurance_run env sup db x s t b discrete).1 = db
      ∧ (increasing_insurance_run env sup
            (increasing_insurance_run env sup db x s t b discrete).1
            x s t b discrete).2
          = (increasing_insurance_run env sup db x s t b discrete).2)
    ∧ (∀ x s t b discrete,
        (decreasing_insurance_run env sup db x s t b discrete).1 = db
      ∧ (decreasing_insurance_run env sup
            (decreasing_insurance_run env sup db x s t b discrete).1
            x s t b discrete).2
          = (decreasing_insurance_run env sup db x s t b discrete).2)
    ∧ (∀ x s b discrete moment,
        (whole_life_insurance_run env sup db x s b discrete moment).1 = db
      ∧ (whole_life_insurance_run env sup
            (whole_life_insurance_run env sup db x s b discrete moment).1
            x s b discrete moment).2
          = (whole_life_insurance_run env sup db x s b discrete moment).2)
    ∧ (∀ x s t b moment discrete,
        (term_insurance_run env sup db x s t b moment discrete).1 = db
      ∧ (term_insurance_run env sup
            (term_insurance_run env sup db x s t b moment discrete).1
            x s t b moment discrete).2
          = (term_insurance_run env sup db x s t b moment discrete).2)
    ∧ (∀ x s b u t moment discrete,
        (deferred_insurance_run env sup db x s b u t moment discrete).1 = db
      ∧ (deferred_insurance_run env sup
            (deferred_insurance_run env sup db x s b u t moment discrete).1
            x s b u t moment discrete).2
          = (deferred_insurance_run env sup db x s b u t moment discrete).2)
    ∧ (∀ x s t b endowment moment discrete,
        (endowment_insurance_run env sup db x s t b endowment moment
            discrete).1 = db
      ∧ (endowment_insurance_run env sup
            (endowment_insurance_run env sup db x s t b endowment moment
              discrete).1 x s t b endowment moment discrete).2
          = (endowment_insurance_run env sup db x s t b endowment moment
              discrete).2)
    ∧ (∀ x s b variance discrete,
        (whole_life_annuity_run env sup db x s b variance discrete).1 = db
      ∧ (whole_life_annuity_run env sup
            (whole_life_annuity_run env sup db x s b variance discrete).1
            x s b variance discrete).2
          = (whole_life_annuity_run env sup db x s b variance discrete).2)
    ∧ (∀ x s t b variance discrete,
        (temporary_annuity_run env sup db x s t b variance discrete).1 = db
      ∧ (temporary_annuity_run env sup
            (temporary_annuity_run env sup db x s t b variance discrete).1
            x s t b variance discrete).2
          = (temporary_annuity_run env sup db x s t b variance discrete).2)
    ∧ (∀ x s t u b discrete,
        (deferred_annuity_run env sup db x s t u b discrete).1 = db
      ∧ (deferred_annuity_run env sup
            (deferred_annuity_run env sup db x s t u b discrete).1
            x s t u b discrete).2
          = (deferred_annuity_run env sup db x s t u b discrete).2) :=
  fun _ _ _ =>
    ⟨fun _ _ _ _ => ⟨rfl, rfl⟩, fun _ _ _ => ⟨rfl, rfl⟩,
     fun _ _ _ _ _ => ⟨rfl, rfl⟩, fun _ _ _ _ _ => ⟨rfl, rfl⟩,
     fun _ _ _ _ _ => ⟨rfl, rfl⟩, fun _ _ _ _ _ => ⟨rfl, rfl⟩,
     fun _ _ _ _ _ => ⟨rfl, rfl⟩, fun _ _ _ _ _ _ => ⟨rfl, rfl⟩,
     fun _ _ _ _ _ _ _ => ⟨rfl, rfl⟩, fun _ _ _ _ _ _ _ => ⟨rfl, rfl⟩,
     fun _ _ _ _ _ => ⟨rfl, rfl⟩, fun _ _ _ _ _ _ => ⟨rfl, rfl⟩,
     fun _ _ _ _ _ _ => ⟨rfl, rfl⟩⟩

/-- Claim C9, counterexample: a mortality fact stored with term 0 is
returned by the derivation helper instead of the `t = 0` base-case
value 0, because `_q_x` performs its store lookup before its base
cases; this refutes base-case precedence for every kind. -/
theorem C9_counterexample :
    _q_x envD3 (db_put db0 (.q 0 0 0) (some (1/2))) FUEL 0 0 0 0 3
      = .ok (some (1/2))
    ∧ (1 : ℚ)/2 ≠ 0 :=
  ⟨by decide, by norm_num⟩

/-- Claim C9, amended: the annuity, survival, insurance and
increasing-insurance helpers try their algebraic sentinels before the
store lookup - a one-year discrete non-deferred annuity derives to the
benefit no matter what the store holds, a zero-term survival derives to
1, a zero-term increasing insurance derives to 0, and a one-year
discrete insurance with endowment equal to the benefit derives to the
endowment shortcut; the mortality, pure-endowment and
decreasing-insurance helpers instead consult the store first, so a
stored fact whose key coincides with a base case - for example a
mortality fact stored with term 0 - is returned as stored. -/
theorem C9_base_precedence :
    (∀ (env : Env) (db : DB) (fuel : Nat) (x s depth : Int) (b : ℚ)
        (variance : Bool),
      _a_x env db (fuel+1) x s 1 0 b true variance depth = .ok (some b))
    ∧ (∀ (env : Env) (db : DB) (fuel : Nat) (x s depth : Int),
      _p_x env db (fuel+1) x s 0 depth = .ok (some 1))
    ∧ (∀ (env : Env) (db : DB) (fuel : Nat) (x s depth : Int) (b : ℚ)
        (discrete : Bool),
      _IA_x env db (fuel+1) x s 0 b discrete depth = .ok (some 0))
    ∧ (∀ (env : Env) (db : DB) (fuel : Nat) (x s u moment depth : Int)
        (b : ℚ),
      _A_x env db (fuel+1) x s 1 u b true b moment depth
        = .ok (some ((env.v_t 1 * b) ^ moment)))
    ∧ (∀ (env : Env) (db : DB) (fuel : Nat) (x s t u depth : Int) (v : ℚ),
      db (.q (x + s) u t) = some v →
      _q_x env db (fuel+1) x s t u depth = .ok (some v))
    ∧ (∀ (env : Env) (db : DB) (fuel : Nat) (x s moment depth : Int)
        (endowment v : ℚ),
      db (.E (x + s) 0 moment) = some v →
      _E_x env db (fuel+1) x s 0 endowment moment depth
        = .ok (some (v * endowment)))
    ∧ (∀ (env : Env) (db : DB) (fuel : Nat) (x s depth : Int) (b v : ℚ)
        (discrete : Bool),
      db (.DA (x + s) 0 discrete) = some v →
      _DA_x env db (fuel+1) x s 0 b discrete depth = .ok (some v)) := by
  refine ⟨?_, ?_, ?_, ?_, ?_, ?_, ?_⟩
  · intro env db fuel x s depth b variance
    simp [_a_x]
  · intro env db fuel x s depth
    simp [_p_x, get_p]
  · intro env db fuel x s depth b discrete
    simp [_IA_x]
  · intro env db fuel x s u moment depth b
    simp [_A_x]
  · intro env db fuel x s t u depth v h
    simp [_q_x, get_q, h]
  · intro env db fuel x s moment depth endowment v h
    simp [_E_x, get_E, h]
  · intro env db fuel x s depth b v discrete h
    simp [_DA_x, get_DA, h]

/-- Claim C9, witness: a stored annuity fact at the one-year discrete
non-deferred key is shadowed by the base case (the result is the
benefit 1, not the stored 5), while a stored mortality fact at the
term-0 key wins over the base case. -/
theorem C9_base_precedence_witness :
    _a_x envD3 (db_put db0 (.a 0 0 1 false true) (some 5)) (47+1)
        0 0 1 0 1 true false 3 = .ok (some 1)
    ∧ _q_x envD3 (db_put db0 (.q 0 0 0) (some (1/2))) (47+1) 0 0 0 0 3
        = .ok (some (1/2)) :=
  ⟨C9_base_precedence.1 envD3 (db_put db0 (.a 0 0 1 false true) (some 5))
      47 0 0 3 1 false,
   C9_base_precedence.2.2.2.2.1 envD3 (db_put db0 (.q 0 0 0) (some (1/2)))
      47 0 0 0 0 3 (1/2) (by decide)⟩

/-- Claim C10, confirmed: appending to the tracer with a message whose
exact joined text is already in the history leaves the history and the
parallel depth and rule records unchanged; appending a new message
inserts the (message, depth, rule) triple at the front of all three
records. -/
theorem C10_blog_dedup (b : Blog) (args : List String) (depth : Int)
    (rule : String) (hr : rule ≠ "") :
    (String.intercalate " " args ∈ b.history →
      Blog.call b args depth rule = .ok b)
    ∧ (String.intercalate " " args ∉ b.history →
      Blog.call b args depth rule
        = .ok { b with history := String.intercalate " " args :: b.history
                       depths := depth :: b.depths
                       rules := rule :: b.rules }) := by
  constructor
  · intro hmem
    simp [Blog.call, hr, hmem]
  · intro hmem
    simp [Blog.call, hr, hmem]

/-- A concrete tracer whose history holds the single message "a b" at
depth 3 under rule "r". -/
def blogOne : Blog :=
  { title := " *t <--"
    levels := 3
    width := 77
    history := ["a b"]
    depths := [3]
    rules := ["r"] }

/-- The tracer `blogOne` after a new message "c" at depth 2, rule "r2"
is inserted at the front. -/
def blogTwo : Blog :=
  { title := " *t <--"
    levels := 3
    width := 77
    history := ["c", "a b"]
    depths := [2, 3]
    rules := ["r2", "r"] }

/-- Claim C10, witness: the dedup behaviour on concrete tracers:
appending "a b" to a fresh tracer inserts it, re-appending the same
joined text leaves the records unchanged, and appending "c" inserts the
new triple at the front. -/
theorem C10_blog_dedup_witness :
    Blog.call (Blog.init ["t"] 3 80) ["a", "b"] 3 "r" = .ok blogOne
    ∧ Blog.call blogOne ["a", "b"] 2 "r2" = .ok blogOne
    ∧ Blog.call blogOne ["c"] 2 "r2" = .ok blogTwo := by
  refine ⟨?_, ?_, ?_⟩
  · have h := (C10_blog_dedup (Blog.init ["t"] 3 80) ["a", "b"] 3 "r"
      (by decide)).2 (by decide)
    rw [h]
    rfl
  · exact (C10_blog_dedup blogOne ["a", "b"] 2 "r2" (by decide)).1
      (by decide)
  · have h := (C10_blog_dedup blogOne ["c"] 2 "r2" (by decide)).2
      (by decide)
    rw [h]
    rfl

end Actuarialmath
